import Mathlib

/-!
Verification of the dual-channel failover coordinator
(`src/token/channel_messenger/compound_messenger.rs`).

The coordinator `CompoundMessenger` owns two channels (`default` and
`other`) and a selection counter `select` (an `AtomicUsize` in the source,
modelled here as a `Nat` under sequential execution).  Channels are only
known through the `ChannelMessenger` trait; we model a channel as an
abstract state machine: a state type `σ` together with one transition
function per trait operation.  Each coordinator operation is embedded as a
pure function returning the Rust result, the updated coordinator state and
a trace of the channel invocations it performed; the trace is ghost
instrumentation used to state which channel was invoked, while the result
and state components follow the Rust source line by line.
-/

namespace SchwabApi

/-- The error type (`crate::error::Error`).  Only the `ChannelMessenger`
variant is relevant to this core; other variants are collapsed into an
opaque-tagged constructor so that channels may return arbitrary errors. -/
inductive Error where
  | ChannelMessenger (msg : String)
  | otherError (tag : Nat)
deriving DecidableEq, Repr

/-- The authorization context (`AuthContext`): three optional fields.
URLs and CSRF tokens are carried opaquely, modelled as strings. -/
structure AuthContext where
  auth_url : Option String
  csrf : Option String
  redirect_url : Option String
deriving DecidableEq, Repr

/-- A model of one implementation of the `ChannelMessenger` trait: a state
type `σ` and one transition per trait operation.  Each operation returns
its Rust result together with the channel state after the call, so a
channel may behave differently on successive invocations. -/
structure ChannelMessenger (σ : Type) where
  with_context : AuthContext → σ → Except Error Unit × σ
  send_auth_message : σ → Except Error Unit × σ
  receive_auth_message : σ → Except Error String × σ

/-- Ghost trace events recording which channel operation the coordinator
invoked, and with which context for installs. -/
inductive Event where
  | installDefault (ctx : AuthContext)
  | installOther (ctx : AuthContext)
  | sendDefault
  | sendOther
  | recvDefault
  | recvOther
deriving DecidableEq, Repr

/-- The coordinator state (`CompoundMessenger<CM0, CM1>`): the selection
counter and the states of the two owned channels. -/
structure CompoundMessenger (σ0 σ1 : Type) where
  select : Nat
  default : σ0
  other : σ1
deriving DecidableEq, Repr

variable {σ0 σ1 : Type}

/-- `CompoundMessenger::new`: counter starts at 0. -/
def CompoundMessenger.new (dch : σ0) (och : σ1) : CompoundMessenger σ0 σ1 :=
  { select := 0, default := dch, other := och }

/-- `with_context`: install the context on the default channel first
(propagating its error via `?`), then on the other channel.  The selection
counter is not consulted or modified. -/
def CompoundMessenger.with_context (M0 : ChannelMessenger σ0)
    (M1 : ChannelMessenger σ1) (context : AuthContext)
    (s : CompoundMessenger σ0 σ1) :
    Except Error Unit × CompoundMessenger σ0 σ1 × List Event :=
  let r0 := M0.with_context context s.default
  match r0.1 with
  | .error e => (.error e, { s with default := r0.2 }, [.installDefault context])
  | .ok _ =>
    let r1 := M1.with_context context s.other
    match r1.1 with
    | .error e =>
      (.error e, { s with default := r0.2, other := r1.2 },
        [.installDefault context, .installOther context])
    | .ok _ =>
      (.ok (), { s with default := r0.2, other := r1.2 },
        [.installDefault context, .installOther context])

/-- `send_auth_message`: loop reading the counter; 0 routes to the default
channel's send, 1 to the other channel's send, anything else returns the
terminal error.  On success return `Ok` at once; on failure increment the
counter by one and run the loop again. -/
def CompoundMessenger.send_auth_message (M0 : ChannelMessenger σ0)
    (M1 : ChannelMessenger σ1) (s : CompoundMessenger σ0 σ1) :
    Except Error Unit × CompoundMessenger σ0 σ1 × List Event :=
  if _h0 : s.select = 0 then
    let r := M0.send_auth_message s.default
    match r.1 with
    | .ok _ => (.ok (), { s with default := r.2 }, [.sendDefault])
    | .error _ =>
      let t := CompoundMessenger.send_auth_message M0 M1
        { s with default := r.2, select := s.select + 1 }
      (t.1, t.2.1, .sendDefault :: t.2.2)
  else if _h1 : s.select = 1 then
    let r := M1.send_auth_message s.other
    match r.1 with
    | .ok _ => (.ok (), { s with other := r.2 }, [.sendOther])
    | .error _ =>
      let t := CompoundMessenger.send_auth_message M0 M1
        { s with other := r.2, select := s.select + 1 }
      (t.1, t.2.1, .sendOther :: t.2.2)
  else
    (.error (.ChannelMessenger "No Messengers available to send"), s, [])
termination_by 2 - s.select
decreasing_by
  all_goals omega

/-- `receive_auth_message`: a single read of the counter routes to the
corresponding channel's receive; no loop, no counter mutation. -/
def CompoundMessenger.receive_auth_message (M0 : ChannelMessenger σ0)
    (M1 : ChannelMessenger σ1) (s : CompoundMessenger σ0 σ1) :
    Except Error String × CompoundMessenger σ0 σ1 × List Event :=
  if s.select = 0 then
    let r := M0.receive_auth_message s.default
    (r.1, { s with default := r.2 }, [.recvDefault])
  else if s.select = 1 then
    let r := M1.receive_auth_message s.other
    (r.1, { s with other := r.2 }, [.recvOther])
  else
    (.error (.ChannelMessenger "No Messengers receive successfully"), s, [])

/-- One operation a caller can perform on a coordinator. -/
inductive Op where
  | withContext (ctx : AuthContext)
  | send
  | receive
deriving DecidableEq, Repr

/-- Execute one caller operation, keeping the resulting coordinator state
and the trace of channel invocations. -/
def CompoundMessenger.step (M0 : ChannelMessenger σ0)
    (M1 : ChannelMessenger σ1) (op : Op) (s : CompoundMessenger σ0 σ1) :
    CompoundMessenger σ0 σ1 × List Event :=
  match op with
  | .withContext ctx =>
    let r := CompoundMessenger.with_context M0 M1 ctx s
    (r.2.1, r.2.2)
  | .send =>
    let r := CompoundMessenger.send_auth_message M0 M1 s
    (r.2.1, r.2.2)
  | .receive =>
    let r := CompoundMessenger.receive_auth_message M0 M1 s
    (r.2.1, r.2.2)

/-- Execute a sequence of caller operations, concatenating the traces. -/
def CompoundMessenger.run (M0 : ChannelMessenger σ0)
    (M1 : ChannelMessenger σ1) (s : CompoundMessenger σ0 σ1) :
    List Op → CompoundMessenger σ0 σ1 × List Event
  | [] => (s, [])
  | op :: ops =>
    let r := CompoundMessenger.step M0 M1 op s
    let t := CompoundMessenger.run M0 M1 r.1 ops
    (t.1, r.2 ++ t.2)

/-- A channel whose every operation succeeds (receive yields "code"),
counting its invocations in its state. -/
def okChannel : ChannelMessenger Nat where
  with_context := fun _ n => (.ok (), n + 1)
  send_auth_message := fun n => (.ok (), n + 1)
  receive_auth_message := fun n => (.ok "code", n + 1)

/-- A channel whose every operation fails, counting its invocations. -/
def failChannel : ChannelMessenger Nat where
  with_context := fun _ n => (.error (.ChannelMessenger "install failed"), n + 1)
  send_auth_message := fun n => (.error (.ChannelMessenger "send failed"), n + 1)
  receive_auth_message := fun n => (.error (.ChannelMessenger "recv failed"), n + 1)

/-- A sample context used by concrete witnesses. -/
def sampleCtx : AuthContext :=
  { auth_url := some "https://127.0.0.1:8081/?state=CSRF&code=code"
    csrf := some "CSRF"
    redirect_url := some "https://127.0.0.1:8081" }

namespace CompoundMessenger

variable (M0 : ChannelMessenger σ0) (M1 : ChannelMessenger σ1)

theorem send_terminal (s : CompoundMessenger σ0 σ1) (h : 2 ≤ s.select) :
    send_auth_message M0 M1 s =
      (.error (.ChannelMessenger "No Messengers available to send"), s, []) := by
  unfold send_auth_message
  have h0 : ¬ s.select = 0 := by omega
  have h1 : ¬ s.select = 1 := by omega
  simp [h0, h1]

theorem send_one_ok (s : CompoundMessenger σ0 σ1) (h : s.select = 1)
    (hr : (M1.send_auth_message s.other).1 = .ok ()) :
    send_auth_message M0 M1 s =
      (.ok (), { s with other := (M1.send_auth_message s.other).2 },
        [Event.sendOther]) := by
  unfold send_auth_message
  simp [h, hr]

theorem send_one_err (s : CompoundMessenger σ0 σ1) (e : Error) (h : s.select = 1)
    (hr : (M1.send_auth_message s.other).1 = .error e) :
    send_auth_message M0 M1 s =
      (.error (.ChannelMessenger "No Messengers available to send"),
        { s with other := (M1.send_auth_message s.other).2, select := 2 },
        [Event.sendOther]) := by
  unfold send_auth_message
  simp [h, hr]
  rw [send_terminal]
  · simp [h]
  · simp

theorem send_zero_ok (s : CompoundMessenger σ0 σ1) (h : s.select = 0)
    (hr : (M0.send_auth_message s.default).1 = .ok ()) :
    send_auth_message M0 M1 s =
      (.ok (), { s with default := (M0.send_auth_message s.default).2 },
        [Event.sendDefault]) := by
  unfold send_auth_message
  simp [h, hr]

theorem send_zero_err_ok (s : CompoundMessenger σ0 σ1) (e : Error)
    (h : s.select = 0)
    (hd : (M0.send_auth_message s.default).1 = .error e)
    (ho : (M1.send_auth_message s.other).1 = .ok ()) :
    send_auth_message M0 M1 s =
      (.ok (),
        { select := 1, default := (M0.send_auth_message s.default).2,
          other := (M1.send_auth_message s.other).2 },
        [Event.sendDefault, Event.sendOther]) := by
  unfold send_auth_message
  simp [h, hd]
  rw [send_one_ok M0 M1 _ rfl]
  · simp [h]
  · simpa using ho

theorem send_zero_err_err (s : CompoundMessenger σ0 σ1) (e0 e1 : Error)
    (h : s.select = 0)
    (hd : (M0.send_auth_message s.default).1 = .error e0)
    (ho : (M1.send_auth_message s.other).1 = .error e1) :
    send_auth_message M0 M1 s =
      (.error (.ChannelMessenger "No Messengers available to send"),
        { select := 2, default := (M0.send_auth_message s.default).2,
          other := (M1.send_auth_message s.other).2 },
        [Event.sendDefault, Event.sendOther]) := by
  unfold send_auth_message
  simp [h, hd]
  rw [send_one_err M0 M1 _ e1 rfl]
  · simp [h]
  · simpa using ho

theorem receive_zero (s : CompoundMessenger σ0 σ1) (h : s.select = 0) :
    receive_auth_message M0 M1 s =
      ((M0.receive_auth_message s.default).1,
        { s with default := (M0.receive_auth_message s.default).2 },
        [Event.recvDefault]) := by
  unfold receive_auth_message
  simp [h]

theorem receive_one (s : CompoundMessenger σ0 σ1) (h : s.select = 1) :
    receive_auth_message M0 M1 s =
      ((M1.receive_auth_message s.other).1,
        { s with other := (M1.receive_auth_message s.other).2 },
        [Event.recvOther]) := by
  unfold receive_auth_message
  simp [h]

theorem receive_terminal (s : CompoundMessenger σ0 σ1) (h : 2 ≤ s.select) :
    receive_auth_message M0 M1 s =
      (.error (.ChannelMessenger "No Messengers receive successfully"), s, []) := by
  unfold receive_auth_message
  have h0 : ¬ s.select = 0 := by omega
  have h1 : ¬ s.select = 1 := by omega
  simp [h0, h1]

theorem with_context_err0 (ctx : AuthContext) (s : CompoundMessenger σ0 σ1)
    (e : Error) (h : (M0.with_context ctx s.default).1 = .error e) :
    with_context M0 M1 ctx s =
      (.error e, { s with default := (M0.with_context ctx s.default).2 },
        [Event.installDefault ctx]) := by
  unfold with_context
  simp [h]

theorem with_context_ok0 (ctx : AuthContext) (s : CompoundMessenger σ0 σ1)
    (h : (M0.with_context ctx s.default).1 = .ok ()) :
    with_context M0 M1 ctx s =
      ((M1.with_context ctx s.other).1,
        { s with
            default := (M0.with_context ctx s.default).2,
            other := (M1.with_context ctx s.other).2 },
        [Event.installDefault ctx, Event.installOther ctx]) := by
  unfold with_context
  simp [h]
  cases hr : (M1.with_context ctx s.other).1 <;> simp [hr]

theorem with_context_select (ctx : AuthContext) (s : CompoundMessenger σ0 σ1) :
    ((with_context M0 M1 ctx s).2.1).select = s.select := by
  cases h : (M0.with_context ctx s.default).1 with
  | error e => rw [with_context_err0 M0 M1 ctx s e h]
  | ok u => cases u; rw [with_context_ok0 M0 M1 ctx s h]

theorem with_context_trace (ctx : AuthContext) (s : CompoundMessenger σ0 σ1) :
    Event.sendDefault ∉ (with_context M0 M1 ctx s).2.2 ∧
    Event.recvDefault ∉ (with_context M0 M1 ctx s).2.2 := by
  cases h : (M0.with_context ctx s.default).1 with
  | error e => rw [with_context_err0 M0 M1 ctx s e h]; simp
  | ok u => cases u; rw [with_context_ok0 M0 M1 ctx s h]; simp

theorem receive_facts (s : CompoundMessenger σ0 σ1) :
    ((receive_auth_message M0 M1 s).2.1).select = s.select ∧
    Event.sendDefault ∉ (receive_auth_message M0 M1 s).2.2 ∧
    (1 ≤ s.select → Event.recvDefault ∉ (receive_auth_message M0 M1 s).2.2) ∧
    (2 ≤ s.select → (receive_auth_message M0 M1 s).2.1 = s ∧
      (receive_auth_message M0 M1 s).2.2 = []) := by
  by_cases h0 : s.select = 0
  · rw [receive_zero M0 M1 s h0]
    refine ⟨rfl, by simp, fun h => by omega, fun h => by omega⟩
  · by_cases h1 : s.select = 1
    · rw [receive_one M0 M1 s h1]
      refine ⟨rfl, by simp, fun _ => by simp, fun h => by omega⟩
    · have h2 : 2 ≤ s.select := by omega
      rw [receive_terminal M0 M1 s h2]
      refine ⟨rfl, by simp, fun _ => by simp, fun _ => ⟨rfl, rfl⟩⟩

theorem send_facts (s : CompoundMessenger σ0 σ1) :
    s.select ≤ (send_auth_message M0 M1 s).2.1.select ∧
    (send_auth_message M0 M1 s).2.1.select ≤ max s.select 2 ∧
    List.count Event.sendDefault (send_auth_message M0 M1 s).2.2 ≤ 1 ∧
    List.count Event.sendOther (send_auth_message M0 M1 s).2.2 ≤ 1 ∧
    Event.recvDefault ∉ (send_auth_message M0 M1 s).2.2 ∧
    (1 ≤ s.select → Event.sendDefault ∉ (send_auth_message M0 M1 s).2.2) ∧
    (2 ≤ s.select → (send_auth_message M0 M1 s).2.1 = s ∧
      (send_auth_message M0 M1 s).2.2 = []) := by
  by_cases h0 : s.select = 0
  · cases hd : (M0.send_auth_message s.default).1 with
    | ok u =>
      cases u
      rw [send_zero_ok M0 M1 s h0 hd]
      dsimp only
      exact ⟨le_refl _, by omega, by decide, by decide, by decide,
        fun h => by omega, fun h => by omega⟩
    | error e =>
      cases ho : (M1.send_auth_message s.other).1 with
      | ok u =>
        cases u
        rw [send_zero_err_ok M0 M1 s e h0 hd ho]
        dsimp only
        exact ⟨by omega, by omega, by decide, by decide, by decide,
          fun h => by omega, fun h => by omega⟩
      | error e1 =>
        rw [send_zero_err_err M0 M1 s e e1 h0 hd ho]
        dsimp only
        exact ⟨by omega, by omega, by decide, by decide, by decide,
          fun h => by omega, fun h => by omega⟩
  · by_cases h1 : s.select = 1
    · cases ho : (M1.send_auth_message s.other).1 with
      | ok u =>
        cases u
        rw [send_one_ok M0 M1 s h1 ho]
        dsimp only
        exact ⟨le_refl _, by omega, by decide, by decide, by decide,
          fun _ => by decide, fun h => by omega⟩
      | error e =>
        rw [send_one_err M0 M1 s e h1 ho]
        dsimp only
        exact ⟨by omega, by omega, by decide, by decide, by decide,
          fun _ => by decide, fun h => by omega⟩
    · have h2 : 2 ≤ s.select := by omega
      rw [send_terminal M0 M1 s h2]
      dsimp only
      exact ⟨le_refl _, by omega, by decide, by decide, by decide,
        fun _ => by decide, fun _ => ⟨rfl, rfl⟩⟩

theorem step_facts (op : Op) (s : CompoundMessenger σ0 σ1) :
    s.select ≤ (step M0 M1 op s).1.select ∧
    (step M0 M1 op s).1.select ≤ max s.select 2 ∧
    (1 ≤ s.select → Event.sendDefault ∉ (step M0 M1 op s).2 ∧
      Event.recvDefault ∉ (step M0 M1 op s).2) ∧
    (2 ≤ s.select → (step M0 M1 op s).1.select = s.select) := by
  cases op with
  | withContext ctx =>
    have hsel : (step M0 M1 (Op.withContext ctx) s).1.select = s.select :=
      with_context_select M0 M1 ctx s
    have htr := with_context_trace M0 M1 ctx s
    exact ⟨by omega, by omega, fun _ => ⟨htr.1, htr.2⟩, fun _ => hsel⟩
  | send =>
    obtain ⟨ha, hb, _, _, he, hf, hg⟩ := send_facts M0 M1 s
    refine ⟨ha, hb, fun h => ⟨hf h, he⟩, fun h2 => ?_⟩
    have := (hg h2).1
    show (send_auth_message M0 M1 s).2.1.select = s.select
    rw [this]
  | receive =>
    obtain ⟨ha, hb, hc, _⟩ := receive_facts M0 M1 s
    have hsel : (step M0 M1 Op.receive s).1.select = s.select := ha
    exact ⟨by omega, by omega, fun h => ⟨hb, hc h⟩, fun _ => hsel⟩

theorem run_select_mono (ops : List Op) (s : CompoundMessenger σ0 σ1) :
    s.select ≤ (run M0 M1 s ops).1.select := by
  induction ops generalizing s with
  | nil => simp [run]
  | cons op ops ih =>
    simp only [run]
    exact le_trans (step_facts M0 M1 op s).1 (ih (step M0 M1 op s).1)

theorem run_select_le (ops : List Op) (s : CompoundMessenger σ0 σ1) :
    (run M0 M1 s ops).1.select ≤ max s.select 2 := by
  induction ops generalizing s with
  | nil => simp [run]
  | cons op ops ih =>
    simp only [run]
    have h := (step_facts M0 M1 op s).2.1
    have h2 := ih (step M0 M1 op s).1
    omega

theorem run_no_default (ops : List Op) (s : CompoundMessenger σ0 σ1)
    (h : 1 ≤ s.select) :
    Event.sendDefault ∉ (run M0 M1 s ops).2 ∧
    Event.recvDefault ∉ (run M0 M1 s ops).2 := by
  induction ops generalizing s with
  | nil => simp [run]
  | cons op ops ih =>
    simp only [run, List.mem_append, not_or]
    have hstep := (step_facts M0 M1 op s).2.2.1 h
    have hmono := (step_facts M0 M1 op s).1
    have hih := ih (step M0 M1 op s).1 (by omega)
    exact ⟨⟨hstep.1, hih.1⟩, hstep.2, hih.2⟩

end CompoundMessenger

open CompoundMessenger

/-- Claim C1: `send_auth_message` routes by the selection counter (0 attempts
the default channel's send, 1 attempts the other channel's send); if the
attempted send succeeds the call returns `Ok` immediately and the counter is
not incremented by that attempt, and if it fails the counter is incremented
by exactly one and the loop retries with the new value, so a failure of the
default channel causes exactly one fallback attempt on the other channel
within the same call. -/
theorem C1_send_routing_and_failover (M0 : ChannelMessenger σ0)
    (M1 : ChannelMessenger σ1) (s : CompoundMessenger σ0 σ1) :
    (s.select = 0 → (M0.send_auth_message s.default).1 = .ok () →
      send_auth_message M0 M1 s =
        (.ok (), { s with default := (M0.send_auth_message s.default).2 },
          [Event.sendDefault])) ∧
    (s.select = 1 → (M1.send_auth_message s.other).1 = .ok () →
      send_auth_message M0 M1 s =
        (.ok (), { s with other := (M1.send_auth_message s.other).2 },
          [Event.sendOther])) ∧
    (∀ e, s.select = 0 → (M0.send_auth_message s.default).1 = .error e →
      send_auth_message M0 M1 s =
        (let t := send_auth_message M0 M1
          { s with
              default := (M0.send_auth_message s.default).2,
              select := 1 }
         (t.1, t.2.1, Event.sendDefault :: t.2.2))) ∧
    (∀ e, s.select = 1 → (M1.send_auth_message s.other).1 = .error e →
      send_auth_message M0 M1 s =
        (let t := send_auth_message M0 M1
          { s with other := (M1.send_auth_message s.other).2, select := 2 }
         (t.1, t.2.1, Event.sendOther :: t.2.2))) ∧
    (∀ e, s.select = 0 → (M0.send_auth_message s.default).1 = .error e →
      (send_auth_message M0 M1 s).2.2 =
        [Event.sendDefault, Event.sendOther]) := by
  refine ⟨?_, ?_, ?_, ?_, ?_⟩
  · intro h0 hr
    exact send_zero_ok M0 M1 s h0 hr
  · intro h1 hr
    exact send_one_ok M0 M1 s h1 hr
  · intro e h0 hd
    cases ho : (M1.send_auth_message s.other).1 with
    | ok u =>
      cases u
      rw [send_zero_err_ok M0 M1 s e h0 hd ho]
      rw [send_one_ok M0 M1 _ rfl (by simpa using ho)]
    | error e1 =>
      rw [send_zero_err_err M0 M1 s e e1 h0 hd ho]
      rw [send_one_err M0 M1 _ e1 rfl (by simpa using ho)]
  · intro e h1 ho
    rw [send_one_err M0 M1 s e h1 ho]
    rw [send_terminal M0 M1 _ (Nat.le_refl 2)]
  · intro e h0 hd
    cases ho : (M1.send_auth_message s.other).1 with
    | ok u =>
      cases u
      rw [send_zero_err_ok M0 M1 s e h0 hd ho]
    | error e1 =>
      rw [send_zero_err_err M0 M1 s e e1 h0 hd ho]

/-- Witness for C1: a coordinator whose default channel fails; the call is
one loop step followed by a retry at counter value 1. -/
theorem C1_send_routing_and_failover_witness :
    send_auth_message failChannel okChannel (CompoundMessenger.new 0 0) =
      (let t := send_auth_message failChannel okChannel
        { CompoundMessenger.new 0 0 with default := 1, select := 1 }
       (t.1, t.2.1, Event.sendDefault :: t.2.2)) :=
  (C1_send_routing_and_failover failChannel okChannel
    (CompoundMessenger.new 0 0)).2.2.1
    (Error.ChannelMessenger "send failed") rfl rfl

/-- Claim C2: once the selection counter is at least 2, `send_auth_message`
returns the terminal error "No Messengers available to send" and
`receive_auth_message` returns the terminal error "No Messengers receive
successfully", in both cases with the coordinator state unchanged and an
empty invocation trace (neither channel is invoked, the counter does not
change). -/
theorem C2_terminal_exhaustion (M0 : ChannelMessenger σ0)
    (M1 : ChannelMessenger σ1) (s : CompoundMessenger σ0 σ1)
    (h : 2 ≤ s.select) :
    send_auth_message M0 M1 s =
      (.error (.ChannelMessenger "No Messengers available to send"), s, []) ∧
    receive_auth_message M0 M1 s =
      (.error (.ChannelMessenger "No Messengers receive successfully"), s, []) :=
  ⟨send_terminal M0 M1 s h, receive_terminal M0 M1 s h⟩

/-- Witness for C2: an exhausted coordinator (counter 2) over two channels
that would succeed if they were ever invoked. -/
theorem C2_terminal_exhaustion_witness :
    send_auth_message okChannel okChannel
        (⟨2, 0, 0⟩ : CompoundMessenger Nat Nat) =
      (.error (.ChannelMessenger "No Messengers available to send"),
        ⟨2, 0, 0⟩, []) ∧
    receive_auth_message okChannel okChannel
        (⟨2, 0, 0⟩ : CompoundMessenger Nat Nat) =
      (.error (.ChannelMessenger "No Messengers receive successfully"),
        ⟨2, 0, 0⟩, []) :=
  C2_terminal_exhaustion okChannel okChannel ⟨2, 0, 0⟩ (by decide)

/-- Claim C3: a coordinator built by `new` starts with counter 0, and the
counter is non-decreasing: no single operation lowers it, and no sequence
of `with_context`, `send_auth_message` and `receive_auth_message` calls
lowers it. -/
theorem C3_counter_monotone (M0 : ChannelMessenger σ0)
    (M1 : ChannelMessenger σ1) (dch : σ0) (och : σ1) :
    (CompoundMessenger.new dch och).select = 0 ∧
    (∀ (op : Op) (s : CompoundMessenger σ0 σ1),
      s.select ≤ (step M0 M1 op s).1.select) ∧
    (∀ (ops : List Op) (s : CompoundMessenger σ0 σ1),
      s.select ≤ (run M0 M1 s ops).1.select) :=
  ⟨rfl, fun op s => (step_facts M0 M1 op s).1,
    fun ops s => run_select_mono M0 M1 ops s⟩

/-- Claim C4: if a `send_auth_message` call fails on the default channel and
succeeds on the other channel, the call returns `Ok` and every subsequent
sequence of calls on the resulting coordinator produces no invocation of
the default channel's send or receive (sticky failover). -/
theorem C4_sticky_failover (M0 : ChannelMessenger σ0)
    (M1 : ChannelMessenger σ1) (s : CompoundMessenger σ0 σ1) (e : Error)
    (ops : List Op) (h0 : s.select = 0)
    (hd : (M0.send_auth_message s.default).1 = .error e)
    (ho : (M1.send_auth_message s.other).1 = .ok ()) :
    (send_auth_message M0 M1 s).1 = .ok () ∧
    Event.sendDefault ∉
      (run M0 M1 (send_auth_message M0 M1 s).2.1 ops).2 ∧
    Event.recvDefault ∉
      (run M0 M1 (send_auth_message M0 M1 s).2.1 ops).2 := by
  have hs := send_zero_err_ok M0 M1 s e h0 hd ho
  have h1 : (send_auth_message M0 M1 s).2.1.select = 1 := by rw [hs]
  have hnd := run_no_default M0 M1 ops (send_auth_message M0 M1 s).2.1
    (by omega)
  exact ⟨by rw [hs], hnd.1, hnd.2⟩

/-- Witness for C4: failing default channel, succeeding other channel, with
a subsequent send followed by a receive. -/
theorem C4_sticky_failover_witness :
    (send_auth_message failChannel okChannel (CompoundMessenger.new 0 0)).1 =
      .ok () ∧
    Event.sendDefault ∉
      (run failChannel okChannel
        (send_auth_message failChannel okChannel
          (CompoundMessenger.new 0 0)).2.1 [Op.send, Op.receive]).2 ∧
    Event.recvDefault ∉
      (run failChannel okChannel
        (send_auth_message failChannel okChannel
          (CompoundMessenger.new 0 0)).2.1 [Op.send, Op.receive]).2 :=
  C4_sticky_failover failChannel okChannel (CompoundMessenger.new 0 0)
    (Error.ChannelMessenger "send failed") [Op.send, Op.receive] rfl rfl rfl

/-- Claim C5: if the default channel's install fails, `with_context` returns
that same error and the other channel's install is never invoked (the
invocation trace holds only the default channel's install). -/
theorem C5_install_short_circuit (M0 : ChannelMessenger σ0)
    (M1 : ChannelMessenger σ1) (ctx : AuthContext)
    (s : CompoundMessenger σ0 σ1) (e : Error)
    (h : (M0.with_context ctx s.default).1 = .error e) :
    (with_context M0 M1 ctx s).1 = .error e ∧
    (with_context M0 M1 ctx s).2.2 = [Event.installDefault ctx] := by
  rw [with_context_err0 M0 M1 ctx s e h]
  exact ⟨rfl, rfl⟩

/-- Witness for C5: a default channel whose install fails. -/
theorem C5_install_short_circuit_witness :
    (with_context failChannel okChannel sampleCtx
      (CompoundMessenger.new 0 0)).1 =
      .error (.ChannelMessenger "install failed") ∧
    (with_context failChannel okChannel sampleCtx
      (CompoundMessenger.new 0 0)).2.2 = [Event.installDefault sampleCtx] :=
  C5_install_short_circuit failChannel okChannel sampleCtx
    (CompoundMessenger.new 0 0) (Error.ChannelMessenger "install failed") rfl

/-- Claim C6: a successful `with_context` call has installed a context equal
in value to the one passed in on both channels, default first and then
other. -/
theorem C6_context_fanout (M0 : ChannelMessenger σ0)
    (M1 : ChannelMessenger σ1) (ctx : AuthContext)
    (s : CompoundMessenger σ0 σ1)
    (h : (with_context M0 M1 ctx s).1 = .ok ()) :
    (with_context M0 M1 ctx s).2.2 =
      [Event.installDefault ctx, Event.installOther ctx] := by
  cases h0 : (M0.with_context ctx s.default).1 with
  | error e =>
    rw [with_context_err0 M0 M1 ctx s e h0] at h
    simp at h
  | ok u =>
    cases u
    rw [with_context_ok0 M0 M1 ctx s h0]

/-- Witness for C6: both installs succeed. -/
theorem C6_context_fanout_witness :
    (with_context okChannel okChannel sampleCtx
      (CompoundMessenger.new 0 0)).2.2 =
      [Event.installDefault sampleCtx, Event.installOther sampleCtx] :=
  C6_context_fanout okChannel okChannel sampleCtx
    (CompoundMessenger.new 0 0) rfl

/-- Claim C7: `with_context` leaves the selection counter unchanged, whether
it succeeds or fails. -/
theorem C7_install_preserves_counter (M0 : ChannelMessenger σ0)
    (M1 : ChannelMessenger σ1) (ctx : AuthContext)
    (s : CompoundMessenger σ0 σ1) :
    ((with_context M0 M1 ctx s).2.1).select = s.select :=
  with_context_select M0 M1 ctx s

/-- Claim C8: `receive_auth_message` returns exactly the result of the
channel selected by the counter (default if 0, other if 1), with a single
invocation of that channel and no counter mutation, even when the selected
channel's receive fails; in particular a receive at counter 0 (before any
send) invokes the default channel. -/
theorem C8_receive_routing (M0 : ChannelMessenger σ0)
    (M1 : ChannelMessenger σ1) (s : CompoundMessenger σ0 σ1) :
    (s.select = 0 → receive_auth_message M0 M1 s =
      ((M0.receive_auth_message s.default).1,
        { s with default := (M0.receive_auth_message s.default).2 },
        [Event.recvDefault])) ∧
    (s.select = 1 → receive_auth_message M0 M1 s =
      ((M1.receive_auth_message s.other).1,
        { s with other := (M1.receive_auth_message s.other).2 },
        [Event.recvOther])) ∧
    ((receive_auth_message M0 M1 s).2.1).select = s.select :=
  ⟨receive_zero M0 M1 s, receive_one M0 M1 s, (receive_facts M0 M1 s).1⟩

/-- Witness for C8: a receive before any send, on a default channel whose
receive fails; the coordinator surfaces exactly that failure. -/
theorem C8_receive_routing_witness :
    receive_auth_message failChannel okChannel (CompoundMessenger.new 0 0) =
      (.error (.ChannelMessenger "recv failed"),
        { CompoundMessenger.new 0 0 with default := 1 },
        [Event.recvDefault]) :=
  (C8_receive_routing failChannel okChannel (CompoundMessenger.new 0 0)).1 rfl

/-- Claim C9: under sequential execution the counter never exceeds 2 from a
fresh coordinator; one `send_auth_message` call increments the counter at
most twice and invokes each channel's send at most once; and once the
counter is at least 2 no operation changes it. -/
theorem C9_counter_bounded (M0 : ChannelMessenger σ0)
    (M1 : ChannelMessenger σ1) (dch : σ0) (och : σ1) (ops : List Op) :
    (run M0 M1 (CompoundMessenger.new dch och) ops).1.select ≤ 2 ∧
    (∀ s : CompoundMessenger σ0 σ1,
      (send_auth_message M0 M1 s).2.1.select ≤ s.select + 2 ∧
      List.count Event.sendDefault (send_auth_message M0 M1 s).2.2 ≤ 1 ∧
      List.count Event.sendOther (send_auth_message M0 M1 s).2.2 ≤ 1) ∧
    (∀ (op : Op) (s : CompoundMessenger σ0 σ1), 2 ≤ s.select →
      (step M0 M1 op s).1.select = s.select) := by
  refine ⟨?_, ?_, ?_⟩
  · have h := run_select_le M0 M1 ops (CompoundMessenger.new dch och)
    have h2 : (CompoundMessenger.new dch och).select = 0 := rfl
    omega
  · intro s
    obtain ⟨_, hb, hc, hd, _⟩ := send_facts M0 M1 s
    exact ⟨by omega, hc, hd⟩
  · intro op s h
    exact (step_facts M0 M1 op s).2.2.2 h

/-- Witness for C9: a step from an exhausted coordinator leaves the counter
at 2. -/
theorem C9_counter_bounded_witness :
    (step okChannel okChannel Op.send
      (⟨2, 0, 0⟩ : CompoundMessenger Nat Nat)).1.select = 2 :=
  (C9_counter_bounded okChannel okChannel 0 0 []).2.2 Op.send ⟨2, 0, 0⟩
    (by decide)

/-- Claim C10: if the default channel's install succeeds and the other
channel's install fails, `with_context` returns the other channel's error,
and the default channel has already received its copy of the context: its
install was invoked first and its post-install state is kept (no
rollback). -/
theorem C10_install_no_rollback (M0 : ChannelMessenger σ0)
    (M1 : ChannelMessenger σ1) (ctx : AuthContext)
    (s : CompoundMessenger σ0 σ1) (e : Error)
    (h0 : (M0.with_context ctx s.default).1 = .ok ())
    (h1 : (M1.with_context ctx s.other).1 = .error e) :
    (with_context M0 M1 ctx s).1 = .error e ∧
    (with_context M0 M1 ctx s).2.2 =
      [Event.installDefault ctx, Event.installOther ctx] ∧
    (with_context M0 M1 ctx s).2.1.default =
      (M0.with_context ctx s.default).2 := by
  rw [with_context_ok0 M0 M1 ctx s h0]
  exact ⟨h1, rfl, rfl⟩

/-- Witness for C10: the default install succeeds, the other install fails;
the default channel's state keeps the completed install. -/
theorem C10_install_no_rollback_witness :
    (with_context okChannel failChannel sampleCtx
      (CompoundMessenger.new 0 0)).1 =
      .error (.ChannelMessenger "install failed") ∧
    (with_context okChannel failChannel sampleCtx
      (CompoundMessenger.new 0 0)).2.2 =
      [Event.installDefault sampleCtx, Event.installOther sampleCtx] ∧
    (with_context okChannel failChannel sampleCtx
      (CompoundMessenger.new 0 0)).2.1.default = 1 :=
  C10_install_no_rollback okChannel failChannel sampleCtx
    (CompoundMessenger.new 0 0) (Error.ChannelMessenger "install failed")
    rfl rfl

end SchwabApi
